import Mathlib

/-!
# Verification of the c-sentinel network probe (src/net_probe.c)

A shallow embedding of the network-state probe of `c-sentinel`:
the socket-table line scanner (`sscanf` format used by `parse_tcp_file` /
`parse_udp_file`), the port classifier `is_common_port`, the address decoder
`hex_to_ip`, the process–socket correlator `find_pid_for_inode`, the two
table parsers and the driver `probe_network`, together with theorems about
their behaviour.

The file system is modelled explicitly: each `/proc/net/*` file is an
`Option (List String)` (`none` = the file cannot be opened, otherwise the
list of its lines), and the `/proc` process tree is a `ProcFS` value.

`MAX_LISTENERS` and `MAX_CONNECTIONS` are defined in `sentinel.h`, which is
not among the provided sources; they are therefore carried as explicit
parameters `maxL` / `maxC` throughout, exactly where the C code reads the
macros.
-/

namespace CSentinel

/-! ## Character classes used by the scanner -/

/-- The `isspace` set recognised by `sscanf` whitespace handling. -/
def isSpaceChar (c : Char) : Bool :=
  c = ' ' || c = '\t' || c = '\n' || c = '\r' || c = '\x0b' || c = '\x0c'

/-- The character class `[0-9A-Fa-f]` of the `%8[0-9A-Fa-f]` conversions. -/
def isHexChar (c : Char) : Bool :=
  c.isDigit || (decide ('A' ≤ c) && decide (c ≤ 'F')) ||
    (decide ('a' ≤ c) && decide (c ≤ 'f'))

/-- Numeric value of one hex digit (0 for non-hex characters, which the
scanner never feeds it). -/
def hexDigitVal (c : Char) : Nat :=
  if c.isDigit then c.toNat - 48
  else if decide ('A' ≤ c) && decide (c ≤ 'F') then c.toNat - 55
  else if decide ('a' ≤ c) && decide (c ≤ 'f') then c.toNat - 87
  else 0

/-- Value of a hex-digit string, most significant digit first. -/
def hexListVal (cs : List Char) : Nat :=
  cs.foldl (fun a c => 16 * a + hexDigitVal c) 0

/-- Value of a decimal-digit string, most significant digit first. -/
def decListVal (cs : List Char) : Nat :=
  cs.foldl (fun a c => 10 * a + (c.toNat - 48)) 0

/-! ## sscanf conversions

Each conversion takes the remaining input and returns the rest of the input
(plus the converted value, for assigning conversions), or `none` when the
conversion fails — in the C code a failed conversion makes `sscanf` return
fewer than 6 assignments and the line is skipped. Sign/`0x` forms accepted
by `strtoul` never occur in `/proc/net` tables and are not modelled. -/

/-- Skip `isspace` characters (leading-whitespace handling of the numeric
conversions, and explicit blanks in the format string). -/
def skipWs (cs : List Char) : List Char :=
  cs.dropWhile isSpaceChar

/-- Conversion `%*d`: skip whitespace, an optional sign and at least one decimal digit;
the value is discarded (`*`). -/
def scanDecSkip (cs : List Char) : Option (List Char) :=
  let cs1 := skipWs cs
  let cs2 := match cs1 with
    | c :: rest => if c = '-' || c = '+' then rest else c :: rest
    | [] => []
  match cs2 with
  | c :: rest => if c.isDigit then some (rest.dropWhile Char.isDigit) else none
  | [] => none

/-- A literal (non-whitespace) character in the format string must match the
next input character exactly. -/
def scanLit (ch : Char) (cs : List Char) : Option (List Char) :=
  match cs with
  | c :: rest => if c = ch then some rest else none
  | [] => none

/-- Conversion `%N[0-9A-Fa-f]`: up to `width` characters of the class, at least one;
no leading-whitespace skip (bracket conversions never skip). -/
def scanCharsetHex (width : Nat) (cs : List Char) :
    Option (String × List Char) :=
  let taken := (cs.take width).takeWhile isHexChar
  if taken.isEmpty then none
  else some (String.mk taken, cs.drop taken.length)

/-- Conversion `%X` into `unsigned int`: skip whitespace, then a maximal non-empty run
of hex digits; the value wraps at 2^32. -/
def scanHexVal (cs : List Char) : Option (Nat × List Char) :=
  let cs1 := skipWs cs
  let ds := cs1.takeWhile isHexChar
  if ds.isEmpty then none
  else some (hexListVal ds % 2 ^ 32, cs1.drop ds.length)

/-- Conversion `%*s`: skip whitespace then a non-empty run of non-whitespace
characters; the value is discarded. -/
def scanStrSkip (cs : List Char) : Option (List Char) :=
  let cs1 := skipWs cs
  let ds := cs1.takeWhile (fun c => !isSpaceChar c)
  if ds.isEmpty then none else some (cs1.drop ds.length)

/-- Conversion `%lu` into `unsigned long`: skip whitespace then a maximal non-empty run
of decimal digits; the value wraps at 2^64. -/
def scanLuVal (cs : List Char) : Option (Nat × List Char) :=
  let cs1 := skipWs cs
  let ds := cs1.takeWhile Char.isDigit
  if ds.isEmpty then none
  else some (decListVal ds % 2 ^ 64, cs1.drop ds.length)

/-! ## Socket records -/

/-- One successfully scanned `/proc/net/{tcp,udp}{,6}` data line: the six
assigned conversions of the `sscanf` call in `parse_tcp_file` /
`parse_udp_file`. -/
structure SocketRecord where
  local_addr_hex : String
  local_port : Nat
  remote_addr_hex : String
  remote_port : Nat
  state : Nat
  inode : Nat
  deriving Repr, DecidableEq

/-- The `sscanf` of one socket-table line, format
`"%*d: %N[0-9A-Fa-f]:%X %N[0-9A-Fa-f]:%X %X %*s %*s %*s %*d %*d %lu"`
with `N = 32` for IPv6 and `N = 8` for IPv4. Returns `none` exactly when
fewer than the six expected fields convert (the C code then `continue`s). -/
def parse_sock_line (is_ipv6 : Bool) (line : String) : Option SocketRecord := do
  let w := if is_ipv6 then 32 else 8
  let cs ← scanDecSkip line.data
  let cs ← scanLit ':' cs
  let cs := skipWs cs
  let (la, cs) ← scanCharsetHex w cs
  let cs ← scanLit ':' cs
  let (lp, cs) ← scanHexVal cs
  let cs := skipWs cs
  let (ra, cs) ← scanCharsetHex w cs
  let cs ← scanLit ':' cs
  let (rp, cs) ← scanHexVal cs
  let (st, cs) ← scanHexVal cs
  let cs ← scanStrSkip cs
  let cs ← scanStrSkip cs
  let cs ← scanStrSkip cs
  let cs ← scanDecSkip cs
  let cs ← scanDecSkip cs
  let (ino, _) ← scanLuVal cs
  pure { local_addr_hex := la, local_port := lp, remote_addr_hex := ra,
         remote_port := rp, state := st, inode := ino }

/-! ## Port classifier -/

/-- The `common_ports` array (without its 0 sentinel terminator). -/
def common_ports : List Nat :=
  [22, 25, 53, 80, 110, 143, 443, 465, 587, 993, 995,
   3306, 5432, 6379, 8080, 8443, 27017]

/-- Function `is_common_port`: membership in `common_ports`, else the ephemeral test
`port >= 32768`. The C parameter is `uint16_t`; callers pass the port
reduced mod 2^16. -/
def is_common_port (port : Nat) : Bool :=
  if common_ports.contains port then true
  else if 32768 ≤ port then true
  else false

/-! ## Address decoder -/

/-- Function `hex_to_ip`. IPv6: the raw hex string is passed through unconverted.
IPv4: `sscanf(hex, "%X", &addr)` parses the maximal hex-digit run at the
front of the string into an `unsigned int`, and the dotted quad is printed
least-significant byte first. When the string starts with no hex digit,
`sscanf` assigns nothing and the C code formats an indeterminate `addr`;
that path is unreachable from the parsers (the scanned address field always
holds at least one hex digit) and is modelled as formatting 0. -/
def hex_to_ip (is_ipv6 : Bool) (hex : String) : String :=
  if is_ipv6 then hex
  else
    let addr := (hexListVal (hex.data.takeWhile isHexChar)) % 2 ^ 32
    toString (addr % 256) ++ "." ++ toString (addr / 2 ^ 8 % 256) ++ "." ++
      toString (addr / 2 ^ 16 % 256) ++ "." ++ toString (addr / 2 ^ 24 % 256)

/-! ## /proc process tree and the correlator -/

/-- One numeric `/proc/<pid>` directory. `fds` is `none` when
`opendir("/proc/<pid>/fd")` fails; otherwise the list of
`readlink` results of its entries, `none` marking a failed `readlink`. -/
structure ProcEntry where
  pid : Nat
  fds : Option (List (Option String))

/-- The `/proc` tree: the numeric directories in enumeration order (`none`
when `opendir("/proc")` fails), and the contents of each
`/proc/<pid>/comm` (`none` when it cannot be opened). -/
structure ProcFS where
  procs : Option (List ProcEntry)
  comm : Nat → Option String

/-- Does one process hold a descriptor whose resolved target is `istr`
(the string `socket:[<inode>]`)? A process whose fd directory cannot be
opened is skipped (`continue`), as is a descriptor whose `readlink` fails. -/
def entry_holds_inode (e : ProcEntry) (istr : String) : Bool :=
  match e.fds with
  | none => false
  | some ts => ts.any (fun t => t = some istr)

/-- The `socket:[<inode>]` string built by `find_pid_for_inode`. -/
def socket_str (inode : Nat) : String :=
  "socket:[" ++ toString inode ++ "]"

/-- Scan of the process list: first matching pid wins. -/
def find_pid_go (istr : String) : List ProcEntry → Nat
  | [] => 0
  | e :: rest =>
    if entry_holds_inode e istr then e.pid else find_pid_go istr rest

/-- Function `find_pid_for_inode`: 0 when `/proc` cannot be enumerated or no process
holds the inode, otherwise the pid of the first holder in enumeration
order. -/
def find_pid_for_inode (env : ProcFS) (inode : Nat) : Nat :=
  match env.procs with
  | none => 0
  | some ps => find_pid_go (socket_str inode) ps

/-- Function `get_process_name`: the first line of `/proc/<pid>/comm` with its
trailing newline stripped, or the `[unknown]` placeholder when the file
cannot be opened. -/
def get_process_name (env : ProcFS) (pid : Nat) : String :=
  match env.comm pid with
  | some s => String.mk (s.data.takeWhile (fun c => c ≠ '\n'))
  | none => "[unknown]"

/-- The owner-resolution block shared by the three storage sites
(lines 194–200, 220–225 and 275–280 of `net_probe.c`): pid from the
correlator, name from `comm` when pid > 0, else the `[kernel]`
placeholder. -/
def owner_fields (env : ProcFS) (inode : Nat) : Nat × String :=
  let pid := find_pid_for_inode env inode
  if 0 < pid then (pid, get_process_name env pid) else (pid, "[kernel]")

/-! ## NetworkInfo -/

/-- One `net_listener_t`. -/
structure NetListener where
  protocol : String
  local_addr : String
  local_port : Nat
  state : String
  pid : Nat
  process_name : String
  deriving Repr, DecidableEq

/-- One `net_connection_t`. -/
structure NetConnection where
  protocol : String
  local_addr : String
  local_port : Nat
  remote_addr : String
  remote_port : Nat
  state : String
  pid : Nat
  process_name : String
  deriving Repr, DecidableEq

/-- Structure `network_info_t`: the stored prefixes of the two fixed-capacity arrays
(as lists, in insertion order), the two array fill counters, and the three
running totals. -/
structure NetworkInfo where
  listeners : List NetListener
  listener_count : Nat
  connections : List NetConnection
  connection_count : Nat
  total_listening : Nat
  total_established : Nat
  unusual_port_count : Nat
  deriving Repr, DecidableEq

/-- The all-zero structure produced by `memset(net, 0, sizeof *net)`. -/
def zeroNet : NetworkInfo :=
  { listeners := [], listener_count := 0, connections := [],
    connection_count := 0, total_listening := 0, total_established := 0,
    unusual_port_count := 0 }

/-- The table of `tcp_state_name`. -/
def tcp_states : List String :=
  ["UNKNOWN", "ESTABLISHED", "SYN_SENT", "SYN_RECV", "FIN_WAIT1",
   "FIN_WAIT2", "TIME_WAIT", "CLOSE", "CLOSE_WAIT", "LAST_ACK",
   "LISTEN", "CLOSING"]

/-- Function `tcp_state_name(state)`: table lookup for 0–11, else `UNKNOWN`. -/
def tcp_state_name (state : Nat) : String :=
  if state ≤ 11 then tcp_states.getD state "UNKNOWN" else "UNKNOWN"

/-! ## Aggregation steps -/

/-- The listener entry built at lines 186–207 of `net_probe.c`. -/
def tcp_listener_of (env : ProcFS) (is_ipv6 : Bool) (r : SocketRecord) :
    NetListener :=
  { protocol := if is_ipv6 then "tcp6" else "tcp"
    local_addr := hex_to_ip is_ipv6 r.local_addr_hex
    local_port := r.local_port
    state := tcp_state_name r.state
    pid := (owner_fields env r.inode).1
    process_name := (owner_fields env r.inode).2 }

/-- The connection entry built at lines 210–228 of `net_probe.c`. -/
def tcp_connection_of (env : ProcFS) (is_ipv6 : Bool) (r : SocketRecord) :
    NetConnection :=
  { protocol := if is_ipv6 then "tcp6" else "tcp"
    local_addr := hex_to_ip is_ipv6 r.local_addr_hex
    local_port := r.local_port
    remote_addr := hex_to_ip is_ipv6 r.remote_addr_hex
    remote_port := r.remote_port
    state := tcp_state_name r.state
    pid := (owner_fields env r.inode).1
    process_name := (owner_fields env r.inode).2 }

/-- The listener entry built at lines 267–287 of `net_probe.c`; the state
label is the literal `"LISTEN"`. -/
def udp_listener_of (env : ProcFS) (is_ipv6 : Bool) (r : SocketRecord) :
    NetListener :=
  { protocol := if is_ipv6 then "udp6" else "udp"
    local_addr := hex_to_ip is_ipv6 r.local_addr_hex
    local_port := r.local_port
    state := "LISTEN"
    pid := (owner_fields env r.inode).1
    process_name := (owner_fields env r.inode).2 }

/-- Effect of one successfully parsed TCP record on the structure
(the `if/else if` at lines 186–229): a LISTEN record is stored as a
listener when the listener array is not full (incrementing
`listener_count`, `total_listening` and, for an unusual port,
`unusual_port_count`); an ESTABLISHED record is stored as a connection when
the connection array is not full; every other record leaves the structure
unchanged. `is_common_port` receives the port reduced to `uint16_t`. -/
def tcp_store_step (maxL maxC : Nat) (env : ProcFS) (is_ipv6 : Bool)
    (r : SocketRecord) (net : NetworkInfo) : NetworkInfo :=
  if r.state = 10 ∧ net.listener_count < maxL then
    { listeners := net.listeners ++ [tcp_listener_of env is_ipv6 r]
      listener_count := net.listener_count + 1
      connections := net.connections
      connection_count := net.connection_count
      total_listening := net.total_listening + 1
      total_established := net.total_established
      unusual_port_count :=
        if is_common_port (r.local_port % 2 ^ 16) then net.unusual_port_count
        else net.unusual_port_count + 1 }
  else if r.state = 1 ∧ net.connection_count < maxC then
    { listeners := net.listeners
      listener_count := net.listener_count
      connections := net.connections ++ [tcp_connection_of env is_ipv6 r]
      connection_count := net.connection_count + 1
      total_listening := net.total_listening
      total_established := net.total_established + 1
      unusual_port_count := net.unusual_port_count }
  else net

/-- Effect of one successfully parsed UDP record (lines 267–288): records
with state 7 or a non-zero local port are stored as listeners (the loop
guard, not this body, enforces capacity); everything else is ignored. -/
def udp_store_step (env : ProcFS) (is_ipv6 : Bool) (r : SocketRecord)
    (net : NetworkInfo) : NetworkInfo :=
  if r.state = 7 ∨ 0 < r.local_port then
    { listeners := net.listeners ++ [udp_listener_of env is_ipv6 r]
      listener_count := net.listener_count + 1
      connections := net.connections
      connection_count := net.connection_count
      total_listening := net.total_listening + 1
      total_established := net.total_established
      unusual_port_count :=
        if is_common_port (r.local_port % 2 ^ 16) then net.unusual_port_count
        else net.unusual_port_count + 1 }
  else net

/-- The record loop of `parse_tcp_file`: lines failing the six-field
`sscanf` are skipped, the rest drive `tcp_store_step`. -/
def parse_tcp_lines (maxL maxC : Nat) (env : ProcFS) (is_ipv6 : Bool) :
    List String → NetworkInfo → NetworkInfo
  | [], net => net
  | line :: rest, net =>
    match parse_sock_line is_ipv6 line with
    | none => parse_tcp_lines maxL maxC env is_ipv6 rest net
    | some r =>
      parse_tcp_lines maxL maxC env is_ipv6 rest
        (tcp_store_step maxL maxC env is_ipv6 r net)

/-- The record loop of `parse_udp_file`: the `while` condition re-checks
`listener_count < MAX_LISTENERS` before each line, stopping the whole read
once the listener array is full. -/
def parse_udp_lines (maxL : Nat) (env : ProcFS) (is_ipv6 : Bool) :
    List String → NetworkInfo → NetworkInfo
  | [], net => net
  | line :: rest, net =>
    if net.listener_count < maxL then
      match parse_sock_line is_ipv6 line with
      | none => parse_udp_lines maxL env is_ipv6 rest net
      | some r =>
        parse_udp_lines maxL env is_ipv6 rest (udp_store_step env is_ipv6 r net)
    else net

/-- Function `parse_tcp_file`: -1 when the file cannot be opened or holds no header
line (the structure untouched), else 0 after the record loop runs on the
lines after the header. -/
def parse_tcp_file (maxL maxC : Nat) (env : ProcFS)
    (file : Option (List String)) (is_ipv6 : Bool) (net : NetworkInfo) :
    Int × NetworkInfo :=
  match file with
  | none => (-1, net)
  | some [] => (-1, net)
  | some (_ :: rest) => (0, parse_tcp_lines maxL maxC env is_ipv6 rest net)

/-- Function `parse_udp_file`: same shell as `parse_tcp_file` around the UDP loop. -/
def parse_udp_file (maxL : Nat) (env : ProcFS)
    (file : Option (List String)) (is_ipv6 : Bool) (net : NetworkInfo) :
    Int × NetworkInfo :=
  match file with
  | none => (-1, net)
  | some [] => (-1, net)
  | some (_ :: rest) => (0, parse_udp_lines maxL env is_ipv6 rest net)

/-! ## The probe driver -/

/-- The four socket-table sources and the process tree visible to one
probe. -/
structure NetEnv where
  tcp4 : Option (List String)
  tcp6 : Option (List String)
  udp4 : Option (List String)
  udp6 : Option (List String)
  procfs : ProcFS

/-- Function `probe_network`: zero the structure (`memset`), then read the four
sources in order — each unconditionally, ignoring the others' return
values — and return 0. `prior` is the contents the caller's structure held
before the probe; the `memset` discards it. -/
def probe_network (maxL maxC : Nat) (env : NetEnv) (prior : NetworkInfo) :
    Int × NetworkInfo :=
  let _ := prior
  let net := zeroNet
  let net := (parse_tcp_file maxL maxC env.procfs env.tcp4 false net).2
  let net := (parse_tcp_file maxL maxC env.procfs env.tcp6 true net).2
  let net := (parse_udp_file maxL env.procfs env.udp4 false net).2
  let net := (parse_udp_file maxL env.procfs env.udp6 true net).2
  (0, net)

/-- The stored part of one probe: the structure after the four reads. -/
def probeNet (maxL maxC : Nat) (env : NetEnv) (prior : NetworkInfo) :
    NetworkInfo :=
  (probe_network maxL maxC env prior).2

/-! ## Measures used in the statements -/

/-- The data lines a source contributes: everything after the header line;
an unopenable or headerless file contributes nothing. -/
def fileRecords : Option (List String) → List String
  | some (_ :: rest) => rest
  | _ => []

/-- Number of lines that scan to a record with state 10 (LISTEN). -/
def tcpListenCount (is_ipv6 : Bool) : List String → Nat
  | [] => 0
  | line :: rest =>
    (match parse_sock_line is_ipv6 line with
     | some r => if r.state = 10 then 1 else 0
     | none => 0) + tcpListenCount is_ipv6 rest

/-- Number of lines that scan to a record with state 1 (ESTABLISHED). -/
def tcpEstCount (is_ipv6 : Bool) : List String → Nat
  | [] => 0
  | line :: rest =>
    (match parse_sock_line is_ipv6 line with
     | some r => if r.state = 1 then 1 else 0
     | none => 0) + tcpEstCount is_ipv6 rest

/-- Number of lines that scan to a record matching the UDP listener test. -/
def udpMatchCount (is_ipv6 : Bool) : List String → Nat
  | [] => 0
  | line :: rest =>
    (match parse_sock_line is_ipv6 line with
     | some r => if r.state = 7 ∨ 0 < r.local_port then 1 else 0
     | none => 0) + udpMatchCount is_ipv6 rest

/-- Matching records observed across the four sources of one probe that the
listener array is offered. -/
def observedListeners (env : NetEnv) : Nat :=
  tcpListenCount false (fileRecords env.tcp4) +
  tcpListenCount true (fileRecords env.tcp6) +
  udpMatchCount false (fileRecords env.udp4) +
  udpMatchCount true (fileRecords env.udp6)

/-- Matching records observed across the two TCP sources that the
connection array is offered. -/
def observedConnections (env : NetEnv) : Nat :=
  tcpEstCount false (fileRecords env.tcp4) +
  tcpEstCount true (fileRecords env.tcp6)

/-- Stored listeners whose (uint16) port the classifier calls unusual. -/
def countUnusual (ls : List NetListener) : Nat :=
  ls.countP (fun l => !is_common_port (l.local_port % 2 ^ 16))

/-- Structural coupling of the counters to the stored sequences: the two
fill counters track the sequence lengths, the running totals track the fill
counters, and the unusual-port counter counts the stored unusual
listeners. -/
def NetInv (net : NetworkInfo) : Prop :=
  net.listeners.length = net.listener_count ∧
  net.connections.length = net.connection_count ∧
  net.total_listening = net.listener_count ∧
  net.total_established = net.connection_count ∧
  net.unusual_port_count = countUnusual net.listeners

/-- The structure after the first read (`/proc/net/tcp`) of a probe. -/
def stage1 (maxL maxC : Nat) (env : NetEnv) : NetworkInfo :=
  parse_tcp_lines maxL maxC env.procfs false (fileRecords env.tcp4) zeroNet

/-- The structure after the second read (`/proc/net/tcp6`). -/
def stage2 (maxL maxC : Nat) (env : NetEnv) : NetworkInfo :=
  parse_tcp_lines maxL maxC env.procfs true (fileRecords env.tcp6)
    (stage1 maxL maxC env)

/-- The structure after the third read (`/proc/net/udp`). -/
def stage3 (maxL maxC : Nat) (env : NetEnv) : NetworkInfo :=
  parse_udp_lines maxL env.procfs false (fileRecords env.udp4)
    (stage2 maxL maxC env)

/-- The structure after the fourth read (`/proc/net/udp6`). -/
def stage4 (maxL maxC : Nat) (env : NetEnv) : NetworkInfo :=
  parse_udp_lines maxL env.procfs true (fileRecords env.udp6)
    (stage3 maxL maxC env)

/-! ## Concrete fixtures for the witnesses -/

/-- A process (pid 500) holding a descriptor for socket inode 12345. -/
def entry500 : ProcEntry :=
  { pid := 500, fds := some [some "cwd", some "socket:[12345]"] }

/-- A `/proc` tree with the single process `entry500`, named `envoy`. -/
def procfs0 : ProcFS :=
  { procs := some [entry500]
    comm := fun p => if p = 500 then some "envoy\n" else none }

/-- A scanned TCP LISTEN record (state 10) on port 8080, inode 12345. -/
def rec10 : SocketRecord :=
  { local_addr_hex := "0100007F", local_port := 8080,
    remote_addr_hex := "00000000", remote_port := 0, state := 10,
    inode := 12345 }

/-- A scanned TCP ESTABLISHED record (state 1). -/
def rec1 : SocketRecord :=
  { local_addr_hex := "0100007F", local_port := 55000,
    remote_addr_hex := "0200007F", remote_port := 443, state := 1,
    inode := 777 }

/-- A scanned record with state 6 (TIME_WAIT) and local port 0: matches
neither TCP aggregation rule nor the UDP listener test. -/
def rec6 : SocketRecord :=
  { local_addr_hex := "00000000", local_port := 0,
    remote_addr_hex := "00000000", remote_port := 0, state := 6,
    inode := 0 }

/-- A connected UDP socket: state 1 (not the unconnected sentinel 7) but a
non-zero local port 9999. -/
def recU : SocketRecord :=
  { local_addr_hex := "0100007F", local_port := 9999,
    remote_addr_hex := "0200007F", remote_port := 53, state := 1,
    inode := 4242 }

/-! ## Helper lemmas -/

theorem append_singleton_ne {α : Type} (l : List α) (e : α) : l ++ [e] ≠ l := by
  intro h
  have := congrArg List.length h
  simp at this

theorem tcp_step_listener_count (maxL maxC : Nat) (env : ProcFS)
    (is_ipv6 : Bool) (r : SocketRecord) (net : NetworkInfo) :
    (tcp_store_step maxL maxC env is_ipv6 r net).listener_count =
      if r.state = 10 ∧ net.listener_count < maxL then net.listener_count + 1
      else net.listener_count := by
  unfold tcp_store_step
  split_ifs <;> rfl

theorem tcp_step_connection_count (maxL maxC : Nat) (env : ProcFS)
    (is_ipv6 : Bool) (r : SocketRecord) (net : NetworkInfo) :
    (tcp_store_step maxL maxC env is_ipv6 r net).connection_count =
      if r.state = 10 ∧ net.listener_count < maxL then net.connection_count
      else if r.state = 1 ∧ net.connection_count < maxC then
        net.connection_count + 1
      else net.connection_count := by
  unfold tcp_store_step
  split_ifs <;> rfl

theorem tcp_step_listeners (maxL maxC : Nat) (env : ProcFS)
    (is_ipv6 : Bool) (r : SocketRecord) (net : NetworkInfo) :
    (tcp_store_step maxL maxC env is_ipv6 r net).listeners =
      if r.state = 10 ∧ net.listener_count < maxL then
        net.listeners ++ [tcp_listener_of env is_ipv6 r]
      else net.listeners := by
  unfold tcp_store_step
  split_ifs <;> rfl

theorem tcp_step_connections (maxL maxC : Nat) (env : ProcFS)
    (is_ipv6 : Bool) (r : SocketRecord) (net : NetworkInfo) :
    (tcp_store_step maxL maxC env is_ipv6 r net).connections =
      if r.state = 10 ∧ net.listener_count < maxL then net.connections
      else if r.state = 1 ∧ net.connection_count < maxC then
        net.connections ++ [tcp_connection_of env is_ipv6 r]
      else net.connections := by
  unfold tcp_store_step
  split_ifs <;> rfl

theorem tcp_step_total_listening (maxL maxC : Nat) (env : ProcFS)
    (is_ipv6 : Bool) (r : SocketRecord) (net : NetworkInfo) :
    (tcp_store_step maxL maxC env is_ipv6 r net).total_listening =
      if r.state = 10 ∧ net.listener_count < maxL then net.total_listening + 1
      else net.total_listening := by
  unfold tcp_store_step
  split_ifs <;> rfl

theorem tcp_step_total_established (maxL maxC : Nat) (env : ProcFS)
    (is_ipv6 : Bool) (r : SocketRecord) (net : NetworkInfo) :
    (tcp_store_step maxL maxC env is_ipv6 r net).total_established =
      if r.state = 10 ∧ net.listener_count < maxL then net.total_established
      else if r.state = 1 ∧ net.connection_count < maxC then
        net.total_established + 1
      else net.total_established := by
  unfold tcp_store_step
  split_ifs <;> rfl

theorem tcp_step_unusual (maxL maxC : Nat) (env : ProcFS)
    (is_ipv6 : Bool) (r : SocketRecord) (net : NetworkInfo) :
    (tcp_store_step maxL maxC env is_ipv6 r net).unusual_port_count =
      if r.state = 10 ∧ net.listener_count < maxL then
        (if is_common_port (r.local_port % 2 ^ 16) then net.unusual_port_count
         else net.unusual_port_count + 1)
      else net.unusual_port_count := by
  unfold tcp_store_step
  split_ifs <;> rfl

theorem udp_step_listener_count (env : ProcFS) (is_ipv6 : Bool)
    (r : SocketRecord) (net : NetworkInfo) :
    (udp_store_step env is_ipv6 r net).listener_count =
      if r.state = 7 ∨ 0 < r.local_port then net.listener_count + 1
      else net.listener_count := by
  unfold udp_store_step
  split_ifs <;> rfl

theorem udp_step_listeners (env : ProcFS) (is_ipv6 : Bool)
    (r : SocketRecord) (net : NetworkInfo) :
    (udp_store_step env is_ipv6 r net).listeners =
      if r.state = 7 ∨ 0 < r.local_port then
        net.listeners ++ [udp_listener_of env is_ipv6 r]
      else net.listeners := by
  unfold udp_store_step
  split_ifs <;> rfl

theorem udp_step_total_listening (env : ProcFS) (is_ipv6 : Bool)
    (r : SocketRecord) (net : NetworkInfo) :
    (udp_store_step env is_ipv6 r net).total_listening =
      if r.state = 7 ∨ 0 < r.local_port then net.total_listening + 1
      else net.total_listening := by
  unfold udp_store_step
  split_ifs <;> rfl

theorem udp_step_unusual (env : ProcFS) (is_ipv6 : Bool)
    (r : SocketRecord) (net : NetworkInfo) :
    (udp_store_step env is_ipv6 r net).unusual_port_count =
      if r.state = 7 ∨ 0 < r.local_port then
        (if is_common_port (r.local_port % 2 ^ 16) then net.unusual_port_count
         else net.unusual_port_count + 1)
      else net.unusual_port_count := by
  unfold udp_store_step
  split_ifs <;> rfl

theorem udp_step_connections (env : ProcFS) (is_ipv6 : Bool)
    (r : SocketRecord) (net : NetworkInfo) :
    (udp_store_step env is_ipv6 r net).connections = net.connections := by
  unfold udp_store_step
  split_ifs <;> rfl

theorem udp_step_connection_count (env : ProcFS) (is_ipv6 : Bool)
    (r : SocketRecord) (net : NetworkInfo) :
    (udp_store_step env is_ipv6 r net).connection_count =
      net.connection_count := by
  unfold udp_store_step
  split_ifs <;> rfl

theorem udp_step_total_established (env : ProcFS) (is_ipv6 : Bool)
    (r : SocketRecord) (net : NetworkInfo) :
    (udp_store_step env is_ipv6 r net).total_established =
      net.total_established := by
  unfold udp_store_step
  split_ifs <;> rfl

theorem countUnusual_append (ls : List NetListener) (e : NetListener) :
    countUnusual (ls ++ [e]) =
      countUnusual ls +
        (if is_common_port (e.local_port % 2 ^ 16) then 0 else 1) := by
  simp only [countUnusual, List.countP_append, List.countP_cons,
    List.countP_nil]
  cases h : is_common_port (e.local_port % 2 ^ 16) <;> simp [h]

theorem tcp_listener_of_local_port (env : ProcFS) (is_ipv6 : Bool)
    (r : SocketRecord) : (tcp_listener_of env is_ipv6 r).local_port =
      r.local_port := rfl

theorem udp_listener_of_local_port (env : ProcFS) (is_ipv6 : Bool)
    (r : SocketRecord) : (udp_listener_of env is_ipv6 r).local_port =
      r.local_port := rfl

theorem udp_listener_of_state (env : ProcFS) (is_ipv6 : Bool)
    (r : SocketRecord) : (udp_listener_of env is_ipv6 r).state =
      "LISTEN" := rfl

theorem zeroNet_inv : NetInv zeroNet := by
  refine ⟨rfl, rfl, rfl, rfl, rfl⟩

theorem tcp_step_inv (maxL maxC : Nat) (env : ProcFS) (is_ipv6 : Bool)
    (r : SocketRecord) (net : NetworkInfo) (h : NetInv net) :
    NetInv (tcp_store_step maxL maxC env is_ipv6 r net) := by
  obtain ⟨h1, h2, h3, h4, h5⟩ := h
  refine ⟨?_, ?_, ?_, ?_, ?_⟩
  · rw [tcp_step_listeners, tcp_step_listener_count]
    split_ifs <;> simp [h1]
  · rw [tcp_step_connections, tcp_step_connection_count]
    split_ifs <;> simp [h2]
  · rw [tcp_step_total_listening, tcp_step_listener_count]
    split_ifs <;> omega
  · rw [tcp_step_total_established, tcp_step_connection_count]
    split_ifs <;> omega
  · rw [tcp_step_unusual, tcp_step_listeners]
    split_ifs with hc hcm
    · rw [countUnusual_append, tcp_listener_of_local_port, if_pos hcm]; omega
    · rw [countUnusual_append, tcp_listener_of_local_port, if_neg hcm]; omega
    · exact h5

theorem udp_step_inv (env : ProcFS) (is_ipv6 : Bool) (r : SocketRecord)
    (net : NetworkInfo) (h : NetInv net) :
    NetInv (udp_store_step env is_ipv6 r net) := by
  obtain ⟨h1, h2, h3, h4, h5⟩ := h
  refine ⟨?_, ?_, ?_, ?_, ?_⟩
  · rw [udp_step_listeners, udp_step_listener_count]
    split_ifs <;> simp [h1]
  · rw [udp_step_connections, udp_step_connection_count]
    exact h2
  · rw [udp_step_total_listening, udp_step_listener_count]
    split_ifs <;> omega
  · rw [udp_step_total_established, udp_step_connection_count]
    exact h4
  · rw [udp_step_unusual, udp_step_listeners]
    split_ifs with hc hcm
    · rw [countUnusual_append, udp_listener_of_local_port, if_pos hcm]; omega
    · rw [countUnusual_append, udp_listener_of_local_port, if_neg hcm]; omega
    · exact h5

theorem tcp_lines_inv (maxL maxC : Nat) (env : ProcFS) (is_ipv6 : Bool)
    (lines : List String) : ∀ net : NetworkInfo, NetInv net →
    NetInv (parse_tcp_lines maxL maxC env is_ipv6 lines net) := by
  induction lines with
  | nil => intro net h; exact h
  | cons line rest ih =>
    intro net h
    simp only [parse_tcp_lines]
    cases hp : parse_sock_line is_ipv6 line with
    | none => exact ih net h
    | some r => exact ih _ (tcp_step_inv maxL maxC env is_ipv6 r net h)

theorem udp_lines_inv (maxL : Nat) (env : ProcFS) (is_ipv6 : Bool)
    (lines : List String) : ∀ net : NetworkInfo, NetInv net →
    NetInv (parse_udp_lines maxL env is_ipv6 lines net) := by
  induction lines with
  | nil => intro net h; exact h
  | cons line rest ih =>
    intro net h
    simp only [parse_udp_lines]
    split_ifs with hlt
    · cases hp : parse_sock_line is_ipv6 line with
      | none => exact ih net h
      | some r => exact ih _ (udp_step_inv env is_ipv6 r net h)
    · exact h

theorem tcp_lines_listener_count (maxL maxC : Nat) (env : ProcFS)
    (is_ipv6 : Bool) (lines : List String) : ∀ net : NetworkInfo,
    net.listener_count ≤ maxL →
    (parse_tcp_lines maxL maxC env is_ipv6 lines net).listener_count =
      min (net.listener_count + tcpListenCount is_ipv6 lines) maxL := by
  induction lines with
  | nil => intro net h; simp only [parse_tcp_lines, tcpListenCount]; omega
  | cons line rest ih =>
    intro net h
    simp only [parse_tcp_lines]
    cases hp : parse_sock_line is_ipv6 line with
    | none => rw [ih net h]; simp [tcpListenCount, hp]
    | some r =>
      have hle : (tcp_store_step maxL maxC env is_ipv6 r net).listener_count
          ≤ maxL := by
        rw [tcp_step_listener_count]; split_ifs <;> omega
      rw [ih _ hle, tcp_step_listener_count]
      simp only [tcpListenCount, hp]
      split_ifs <;> omega

theorem tcp_lines_connection_count (maxL maxC : Nat) (env : ProcFS)
    (is_ipv6 : Bool) (lines : List String) : ∀ net : NetworkInfo,
    net.connection_count ≤ maxC →
    (parse_tcp_lines maxL maxC env is_ipv6 lines net).connection_count =
      min (net.connection_count + tcpEstCount is_ipv6 lines) maxC := by
  induction lines with
  | nil => intro net h; simp only [parse_tcp_lines, tcpEstCount]; omega
  | cons line rest ih =>
    intro net h
    simp only [parse_tcp_lines]
    cases hp : parse_sock_line is_ipv6 line with
    | none => rw [ih net h]; simp [tcpEstCount, hp]
    | some r =>
      have hle : (tcp_store_step maxL maxC env is_ipv6 r net).connection_count
          ≤ maxC := by
        rw [tcp_step_connection_count]; split_ifs <;> omega
      rw [ih _ hle, tcp_step_connection_count]
      simp only [tcpEstCount, hp]
      split_ifs <;> omega

theorem udp_lines_listener_count (maxL : Nat) (env : ProcFS)
    (is_ipv6 : Bool) (lines : List String) : ∀ net : NetworkInfo,
    net.listener_count ≤ maxL →
    (parse_udp_lines maxL env is_ipv6 lines net).listener_count =
      min (net.listener_count + udpMatchCount is_ipv6 lines) maxL := by
  induction lines with
  | nil => intro net h; simp only [parse_udp_lines, udpMatchCount]; omega
  | cons line rest ih =>
    intro net h
    simp only [parse_udp_lines]
    split_ifs with hlt
    · cases hp : parse_sock_line is_ipv6 line with
      | none => rw [ih net h]; simp [udpMatchCount, hp]
      | some r =>
        have hle : (udp_store_step env is_ipv6 r net).listener_count
            ≤ maxL := by
          rw [udp_step_listener_count]; split_ifs <;> omega
        rw [ih _ hle, udp_step_listener_count]
        simp only [udpMatchCount, hp]
        split_ifs <;> omega
    · omega

theorem udp_lines_connections (maxL : Nat) (env : ProcFS) (is_ipv6 : Bool)
    (lines : List String) : ∀ net : NetworkInfo,
    (parse_udp_lines maxL env is_ipv6 lines net).connections =
        net.connections ∧
      (parse_udp_lines maxL env is_ipv6 lines net).connection_count =
        net.connection_count ∧
      (parse_udp_lines maxL env is_ipv6 lines net).total_established =
        net.total_established := by
  induction lines with
  | nil => intro net; exact ⟨rfl, rfl, rfl⟩
  | cons line rest ih =>
    intro net
    simp only [parse_udp_lines]
    split_ifs with hlt
    · cases hp : parse_sock_line is_ipv6 line with
      | none => exact ih net
      | some r =>
        obtain ⟨i1, i2, i3⟩ := ih (udp_store_step env is_ipv6 r net)
        exact ⟨by rw [i1, udp_step_connections],
          by rw [i2, udp_step_connection_count],
          by rw [i3, udp_step_total_established]⟩
    · exact ⟨rfl, rfl, rfl⟩

theorem udp_lines_listeners_extend (maxL : Nat) (env : ProcFS)
    (is_ipv6 : Bool) (lines : List String) : ∀ net : NetworkInfo,
    ∃ new : List NetListener,
      (parse_udp_lines maxL env is_ipv6 lines net).listeners =
          net.listeners ++ new ∧
        ∀ e ∈ new, e.state = "LISTEN" := by
  induction lines with
  | nil => intro net; exact ⟨[], by simp [parse_udp_lines], by simp⟩
  | cons line rest ih =>
    intro net
    simp only [parse_udp_lines]
    split_ifs with hlt
    · cases hp : parse_sock_line is_ipv6 line with
      | none => exact ih net
      | some r =>
        obtain ⟨new, hnew, hstate⟩ := ih (udp_store_step env is_ipv6 r net)
        rw [hnew, udp_step_listeners]
        split_ifs with hc
        · refine ⟨udp_listener_of env is_ipv6 r :: new, by simp, ?_⟩
          intro e he
          rcases List.mem_cons.mp he with h1 | h2
          · rw [h1, udp_listener_of_state]
          · exact hstate e h2
        · exact ⟨new, rfl, hstate⟩
    · exact ⟨[], by simp, by simp⟩

theorem parse_tcp_file_snd (maxL maxC : Nat) (env : ProcFS)
    (file : Option (List String)) (is_ipv6 : Bool) (net : NetworkInfo) :
    (parse_tcp_file maxL maxC env file is_ipv6 net).2 =
      parse_tcp_lines maxL maxC env is_ipv6 (fileRecords file) net := by
  cases file with
  | none => rfl
  | some l => cases l with
    | nil => rfl
    | cons a b => rfl

theorem parse_udp_file_snd (maxL : Nat) (env : ProcFS)
    (file : Option (List String)) (is_ipv6 : Bool) (net : NetworkInfo) :
    (parse_udp_file maxL env file is_ipv6 net).2 =
      parse_udp_lines maxL env is_ipv6 (fileRecords file) net := by
  cases file with
  | none => rfl
  | some l => cases l with
    | nil => rfl
    | cons a b => rfl

theorem probe_network_snd (maxL maxC : Nat) (env : NetEnv)
    (prior : NetworkInfo) :
    (probe_network maxL maxC env prior).2 = stage4 maxL maxC env := by
  simp only [probe_network, parse_tcp_file_snd, parse_udp_file_snd,
    stage4, stage3, stage2, stage1]

theorem stage4_listener_count (maxL maxC : Nat) (env : NetEnv) :
    (stage4 maxL maxC env).listener_count =
      min (observedListeners env) maxL := by
  have h1 : (stage1 maxL maxC env).listener_count =
      min (0 + tcpListenCount false (fileRecords env.tcp4)) maxL :=
    tcp_lines_listener_count maxL maxC env.procfs false
      (fileRecords env.tcp4) zeroNet (Nat.zero_le maxL)
  have h2 : (stage2 maxL maxC env).listener_count =
      min ((stage1 maxL maxC env).listener_count +
        tcpListenCount true (fileRecords env.tcp6)) maxL :=
    tcp_lines_listener_count maxL maxC env.procfs true
      (fileRecords env.tcp6) (stage1 maxL maxC env) (by rw [h1]; omega)
  have h3 : (stage3 maxL maxC env).listener_count =
      min ((stage2 maxL maxC env).listener_count +
        udpMatchCount false (fileRecords env.udp4)) maxL :=
    udp_lines_listener_count maxL env.procfs false
      (fileRecords env.udp4) (stage2 maxL maxC env) (by rw [h2]; omega)
  have h4 : (stage4 maxL maxC env).listener_count =
      min ((stage3 maxL maxC env).listener_count +
        udpMatchCount true (fileRecords env.udp6)) maxL :=
    udp_lines_listener_count maxL env.procfs true
      (fileRecords env.udp6) (stage3 maxL maxC env) (by rw [h3]; omega)
  simp only [observedListeners]
  omega

theorem stage4_connection_count (maxL maxC : Nat) (env : NetEnv) :
    (stage4 maxL maxC env).connection_count =
      min (observedConnections env) maxC := by
  have h1 : (stage1 maxL maxC env).connection_count =
      min (0 + tcpEstCount false (fileRecords env.tcp4)) maxC :=
    tcp_lines_connection_count maxL maxC env.procfs false
      (fileRecords env.tcp4) zeroNet (Nat.zero_le maxC)
  have h2 : (stage2 maxL maxC env).connection_count =
      min ((stage1 maxL maxC env).connection_count +
        tcpEstCount true (fileRecords env.tcp6)) maxC :=
    tcp_lines_connection_count maxL maxC env.procfs true
      (fileRecords env.tcp6) (stage1 maxL maxC env) (by rw [h1]; omega)
  have h3 : (stage3 maxL maxC env).connection_count =
      (stage2 maxL maxC env).connection_count :=
    (udp_lines_connections maxL env.procfs false
      (fileRecords env.udp4) (stage2 maxL maxC env)).2.1
  have h4 : (stage4 maxL maxC env).connection_count =
      (stage3 maxL maxC env).connection_count :=
    (udp_lines_connections maxL env.procfs true
      (fileRecords env.udp6) (stage3 maxL maxC env)).2.1
  simp only [observedConnections]
  omega

theorem stage4_inv (maxL maxC : Nat) (env : NetEnv) :
    NetInv (stage4 maxL maxC env) :=
  udp_lines_inv maxL env.procfs true (fileRecords env.udp6)
    (stage3 maxL maxC env)
    (udp_lines_inv maxL env.procfs false (fileRecords env.udp4)
      (stage2 maxL maxC env)
      (tcp_lines_inv maxL maxC env.procfs true (fileRecords env.tcp6)
        (stage1 maxL maxC env)
        (tcp_lines_inv maxL maxC env.procfs false (fileRecords env.tcp4)
          zeroNet zeroNet_inv)))

/-- C1: For every input, the stored listener and connection sequences
never exceed the configured capacities and their lengths equal
min(observed matching record count, capacity); and the running totals
(`total_listening`, `total_established`, `unusual_port_count`) count only
entries that were actually stored — truncation suppresses the totals as
well as the storage. -/
theorem probe_capacity_and_totals (maxL maxC : Nat) (env : NetEnv)
    (prior : NetworkInfo) :
    (probeNet maxL maxC env prior).listeners.length =
        (probeNet maxL maxC env prior).listener_count ∧
      (probeNet maxL maxC env prior).connections.length =
        (probeNet maxL maxC env prior).connection_count ∧
      (probeNet maxL maxC env prior).listener_count ≤ maxL ∧
      (probeNet maxL maxC env prior).connection_count ≤ maxC ∧
      (probeNet maxL maxC env prior).listener_count =
        min (observedListeners env) maxL ∧
      (probeNet maxL maxC env prior).connection_count =
        min (observedConnections env) maxC ∧
      (probeNet maxL maxC env prior).total_listening =
        (probeNet maxL maxC env prior).listener_count ∧
      (probeNet maxL maxC env prior).total_established =
        (probeNet maxL maxC env prior).connection_count ∧
      (probeNet maxL maxC env prior).unusual_port_count =
        countUnusual (probeNet maxL maxC env prior).listeners := by
  have hs := probe_network_snd maxL maxC env prior
  obtain ⟨i1, i2, i3, i4, i5⟩ := stage4_inv maxL maxC env
  have hl := stage4_listener_count maxL maxC env
  have hc := stage4_connection_count maxL maxC env
  simp only [probeNet, hs]
  exact ⟨i1, i2, by omega, by omega, hl, hc, i3, i4, i5⟩

theorem udp_lines_full (maxL : Nat) (env : ProcFS) (is_ipv6 : Bool)
    (lines : List String) (net : NetworkInfo)
    (h : ¬ net.listener_count < maxL) :
    parse_udp_lines maxL env is_ipv6 lines net = net := by
  cases lines with
  | nil => rfl
  | cons a l => simp [parse_udp_lines, h]

theorem find_pid_go_none (istr : String) (ps : List ProcEntry)
    (h : ∀ e ∈ ps, entry_holds_inode e istr = false) :
    find_pid_go istr ps = 0 := by
  induction ps with
  | nil => rfl
  | cons e rest ih =>
    simp only [find_pid_go]
    rw [h e (List.mem_cons_self e rest)]
    exact ih fun x hx => h x (List.mem_cons_of_mem e hx)

theorem find_pid_go_first (istr : String) (ps1 : List ProcEntry)
    (e : ProcEntry) (ps2 : List ProcEntry)
    (h1 : ∀ x ∈ ps1, entry_holds_inode x istr = false)
    (he : entry_holds_inode e istr = true) :
    find_pid_go istr (ps1 ++ e :: ps2) = e.pid := by
  induction ps1 with
  | nil => simp [find_pid_go, he]
  | cons a rest ih =>
    simp only [List.cons_append, find_pid_go]
    rw [h1 a (List.mem_cons_self a rest)]
    exact ih fun x hx => h1 x (List.mem_cons_of_mem a hx)

theorem probe_network_eq (maxL maxC : Nat) (env : NetEnv)
    (prior : NetworkInfo) :
    probe_network maxL maxC env prior = (0, stage4 maxL maxC env) :=
  Prod.ext_iff.mpr ⟨rfl, probe_network_snd maxL maxC env prior⟩

/-- C2: With room in both arrays, a successfully parsed TCP record is
aggregated as a listener iff its state is 10 (LISTEN), as a connection iff
its state is 1 (ESTABLISHED); every other state leaves the structure —
sequences and counters — completely unchanged. -/
theorem tcp_classification (maxL maxC : Nat) (env : ProcFS)
    (is_ipv6 : Bool) (r : SocketRecord) (net : NetworkInfo)
    (hL : net.listener_count < maxL) (hC : net.connection_count < maxC) :
    ((tcp_store_step maxL maxC env is_ipv6 r net).listeners ≠
        net.listeners ↔ r.state = 10) ∧
      ((tcp_store_step maxL maxC env is_ipv6 r net).connections ≠
        net.connections ↔ r.state = 1) ∧
      (r.state = 10 →
        (tcp_store_step maxL maxC env is_ipv6 r net).listeners =
          net.listeners ++ [tcp_listener_of env is_ipv6 r]) ∧
      (r.state = 1 →
        (tcp_store_step maxL maxC env is_ipv6 r net).connections =
          net.connections ++ [tcp_connection_of env is_ipv6 r]) ∧
      (r.state ≠ 10 → r.state ≠ 1 →
        tcp_store_step maxL maxC env is_ipv6 r net = net) := by
  refine ⟨?_, ?_, ?_, ?_, ?_⟩
  · constructor
    · intro hne
      rw [tcp_step_listeners] at hne
      split_ifs at hne with ha
      · exact ha.1
      · exact absurd rfl hne
    · intro h10
      rw [tcp_step_listeners, if_pos ⟨h10, hL⟩]
      exact append_singleton_ne _ _
  · constructor
    · intro hne
      rw [tcp_step_connections] at hne
      split_ifs at hne with ha hb
      · exact absurd rfl hne
      · exact hb.1
      · exact absurd rfl hne
    · intro h1
      have h10 : ¬(r.state = 10 ∧ net.listener_count < maxL) := by
        intro hx; omega
      rw [tcp_step_connections, if_neg h10, if_pos ⟨h1, hC⟩]
      exact append_singleton_ne _ _
  · intro h10
    rw [tcp_step_listeners, if_pos ⟨h10, hL⟩]
  · intro h1
    have h10 : ¬(r.state = 10 ∧ net.listener_count < maxL) := by
      intro hx; omega
    rw [tcp_step_connections, if_neg h10, if_pos ⟨h1, hC⟩]
  · intro h10 h1
    unfold tcp_store_step
    rw [if_neg (fun hx => h10 hx.1), if_neg (fun hx => h1 hx.1)]

theorem tcp_classification_witness :
    zeroNet.listener_count < 4 ∧ zeroNet.connection_count < 4 ∧
      (((tcp_store_step 4 4 procfs0 false rec10 zeroNet).listeners ≠
          zeroNet.listeners ↔ rec10.state = 10) ∧
        ((tcp_store_step 4 4 procfs0 false rec10 zeroNet).connections ≠
          zeroNet.connections ↔ rec10.state = 1) ∧
        (rec10.state = 10 →
          (tcp_store_step 4 4 procfs0 false rec10 zeroNet).listeners =
            zeroNet.listeners ++ [tcp_listener_of procfs0 false rec10]) ∧
        (rec10.state = 1 →
          (tcp_store_step 4 4 procfs0 false rec10 zeroNet).connections =
            zeroNet.connections ++ [tcp_connection_of procfs0 false rec10]) ∧
        (rec10.state ≠ 10 → rec10.state ≠ 1 →
          tcp_store_step 4 4 procfs0 false rec10 zeroNet = zeroNet)) :=
  ⟨by decide, by decide,
    tcp_classification 4 4 procfs0 false rec10 zeroNet (by decide)
      (by decide)⟩

/-- C3: A successfully parsed UDP record is aggregated as a listener iff
its state is 7 or its local port is non-zero; UDP parsing never produces
connection entries and never changes the connection counters. -/
theorem udp_classification (maxL : Nat) (env : ProcFS) (is_ipv6 : Bool)
    (r : SocketRecord) (net : NetworkInfo) (file : Option (List String)) :
    ((udp_store_step env is_ipv6 r net).listeners ≠ net.listeners ↔
        (r.state = 7 ∨ r.local_port ≠ 0)) ∧
      (udp_store_step env is_ipv6 r net).connections = net.connections ∧
      (udp_store_step env is_ipv6 r net).connection_count =
        net.connection_count ∧
      (udp_store_step env is_ipv6 r net).total_established =
        net.total_established ∧
      (¬(r.state = 7 ∨ r.local_port ≠ 0) →
        udp_store_step env is_ipv6 r net = net) ∧
      (parse_udp_file maxL env file is_ipv6 net).2.connections =
        net.connections := by
  refine ⟨?_, udp_step_connections env is_ipv6 r net,
    udp_step_connection_count env is_ipv6 r net,
    udp_step_total_established env is_ipv6 r net, ?_, ?_⟩
  · constructor
    · intro hne
      rw [udp_step_listeners] at hne
      split_ifs at hne with ha
      · rcases ha with h7 | hp
        · exact Or.inl h7
        · exact Or.inr (by omega)
      · exact absurd rfl hne
    · intro h
      have hc : r.state = 7 ∨ 0 < r.local_port := by
        rcases h with h7 | hp
        · exact Or.inl h7
        · exact Or.inr (Nat.pos_of_ne_zero hp)
      rw [udp_step_listeners, if_pos hc]
      exact append_singleton_ne _ _
  · intro h
    have hc : ¬(r.state = 7 ∨ 0 < r.local_port) := by
      intro hx
      rcases hx with h7 | hp
      · exact h (Or.inl h7)
      · exact h (Or.inr (Nat.pos_iff_ne_zero.mp hp))
    unfold udp_store_step
    rw [if_neg hc]
  · rw [parse_udp_file_snd]
    exact (udp_lines_connections maxL env is_ipv6 (fileRecords file) net).1

theorem udp_classification_witness :
    ((udp_store_step procfs0 false recU zeroNet).listeners ≠
        zeroNet.listeners ↔ (recU.state = 7 ∨ recU.local_port ≠ 0)) ∧
      ¬(rec6.state = 7 ∨ rec6.local_port ≠ 0) ∧
      udp_store_step procfs0 false rec6 zeroNet = zeroNet :=
  ⟨(udp_classification 4 procfs0 false recU zeroNet none).1, by decide,
    (udp_classification 4 procfs0 false rec6 zeroNet none).2.2.2.2.1
      (by decide)⟩

/-- C4: A port is classified common iff it is one of the 17 well-known
service ports or at least 32768; 22 is common, 31337 unusual, 40000 common;
and for a stored listener entry the unusual-port counter is incremented
exactly when the classifier rejects the (uint16) port. -/
theorem port_classifier_spec (p maxL maxC : Nat) (env : ProcFS)
    (is_ipv6 : Bool) (r : SocketRecord) (net : NetworkInfo)
    (h10 : r.state = 10) (hcap : net.listener_count < maxL) :
    (is_common_port p = true ↔
        (p = 22 ∨ p = 25 ∨ p = 53 ∨ p = 80 ∨ p = 110 ∨ p = 143 ∨
          p = 443 ∨ p = 465 ∨ p = 587 ∨ p = 993 ∨ p = 995 ∨ p = 3306 ∨
          p = 5432 ∨ p = 6379 ∨ p = 8080 ∨ p = 8443 ∨ p = 27017 ∨
          32768 ≤ p)) ∧
      is_common_port 22 = true ∧
      is_common_port 31337 = false ∧
      is_common_port 40000 = true ∧
      (tcp_store_step maxL maxC env is_ipv6 r net).unusual_port_count =
        net.unusual_port_count +
          (if is_common_port (r.local_port % 2 ^ 16) then 0 else 1) := by
  refine ⟨?_, by decide, by decide, by decide, ?_⟩
  · have hiff : common_ports.contains p = true ↔
        (p = 22 ∨ p = 25 ∨ p = 53 ∨ p = 80 ∨ p = 110 ∨ p = 143 ∨
          p = 443 ∨ p = 465 ∨ p = 587 ∨ p = 993 ∨ p = 995 ∨ p = 3306 ∨
          p = 5432 ∨ p = 6379 ∨ p = 8080 ∨ p = 8443 ∨ p = 27017) := by
      simp [common_ports, List.elem_eq_mem]
    unfold is_common_port
    split_ifs with h1 h2
    · rw [hiff] at h1
      exact ⟨fun _ => by omega, fun _ => rfl⟩
    · exact ⟨fun _ => by omega, fun _ => rfl⟩
    · rw [hiff] at h1
      constructor
      · intro hf
        exact absurd hf (by simp)
      · intro hor
        exact absurd (by omega : False) id
  · rw [tcp_step_unusual, if_pos ⟨h10, hcap⟩]
    split_ifs <;> omega

theorem port_classifier_witness :
    rec10.state = 10 ∧ zeroNet.listener_count < 4 ∧
      (is_common_port 31337 = true ↔
        (31337 = 22 ∨ 31337 = 25 ∨ 31337 = 53 ∨ 31337 = 80 ∨
          31337 = 110 ∨ 31337 = 143 ∨ 31337 = 443 ∨ 31337 = 465 ∨
          31337 = 587 ∨ 31337 = 993 ∨ 31337 = 995 ∨ 31337 = 3306 ∨
          31337 = 5432 ∨ 31337 = 6379 ∨ 31337 = 8080 ∨ 31337 = 8443 ∨
          31337 = 27017 ∨ 32768 ≤ 31337)) ∧
      (tcp_store_step 4 4 procfs0 false rec10 zeroNet).unusual_port_count =
        zeroNet.unusual_port_count +
          (if is_common_port (rec10.local_port % 2 ^ 16) then 0 else 1) :=
  ⟨by decide, by decide,
    (port_classifier_spec 31337 4 4 procfs0 false rec10 zeroNet (by decide)
      (by decide)).1,
    (port_classifier_spec 31337 4 4 procfs0 false rec10 zeroNet (by decide)
      (by decide)).2.2.2.2⟩

/-- C5: For an 8-hex-digit IPv4 address string the decoder parses it as
an unsigned integer `v` and prints the dotted quad least-significant byte
first; `0100007F` decodes to `127.0.0.1`; IPv6 strings pass through
unconverted. -/
theorem hex_to_ip_spec (s : String) (_h8 : s.length = 8)
    (hhex : ∀ c ∈ s.data, isHexChar c = true) :
    (hex_to_ip false s =
        toString (hexListVal s.data % 2 ^ 32 % 256) ++ "." ++
          toString (hexListVal s.data % 2 ^ 32 / 2 ^ 8 % 256) ++ "." ++
          toString (hexListVal s.data % 2 ^ 32 / 2 ^ 16 % 256) ++ "." ++
          toString (hexListVal s.data % 2 ^ 32 / 2 ^ 24 % 256)) ∧
      hex_to_ip false "0100007F" = "127.0.0.1" ∧
      ∀ t : String, hex_to_ip true t = t := by
  refine ⟨?_, by decide, fun t => rfl⟩
  have ht : s.data.takeWhile isHexChar = s.data :=
    List.takeWhile_eq_self_iff.mpr hhex
  simp [hex_to_ip, ht]

theorem hex_to_ip_witness :
    ("0100007F" : String).length = 8 ∧
      (∀ c ∈ ("0100007F" : String).data, isHexChar c = true) ∧
      hex_to_ip false "0100007F" =
        toString (hexListVal ("0100007F" : String).data % 2 ^ 32 % 256) ++
          "." ++
          toString (hexListVal ("0100007F" : String).data % 2 ^ 32 / 2 ^ 8 %
            256) ++ "." ++
          toString (hexListVal ("0100007F" : String).data % 2 ^ 32 / 2 ^ 16 %
            256) ++ "." ++
          toString (hexListVal ("0100007F" : String).data % 2 ^ 32 / 2 ^ 24 %
            256) :=
  ⟨by decide, by decide,
    (hex_to_ip_spec "0100007F" (by decide) (by decide)).1⟩

/-- C6: The correlator returns the pid of the first process, in
enumeration order, holding a descriptor resolving to `socket:[inode]`;
it returns 0 when `/proc` cannot be enumerated or no process matches; and
a 0 owner is stored as pid 0 with the `[kernel]` placeholder name. -/
theorem inode_correlator_spec (env : ProcFS) (inode : Nat) :
    (env.procs = none → find_pid_for_inode env inode = 0) ∧
      (∀ ps, env.procs = some ps →
        (∀ e ∈ ps, entry_holds_inode e (socket_str inode) = false) →
        find_pid_for_inode env inode = 0) ∧
      (∀ ps1 (e : ProcEntry) ps2, env.procs = some (ps1 ++ e :: ps2) →
        (∀ x ∈ ps1, entry_holds_inode x (socket_str inode) = false) →
        entry_holds_inode e (socket_str inode) = true →
        find_pid_for_inode env inode = e.pid) ∧
      (find_pid_for_inode env inode = 0 →
        owner_fields env inode = (0, "[kernel]")) := by
  refine ⟨?_, ?_, ?_, ?_⟩
  · intro h
    simp [find_pid_for_inode, h]
  · intro ps hps h
    simp only [find_pid_for_inode, hps]
    exact find_pid_go_none _ _ h
  · intro ps1 e ps2 hps h1 he
    simp only [find_pid_for_inode, hps]
    exact find_pid_go_first _ _ _ _ h1 he
  · intro h0
    simp [owner_fields, h0]

theorem inode_correlator_witness :
    procfs0.procs = some ([] ++ entry500 :: []) ∧
      entry_holds_inode entry500 (socket_str 12345) = true ∧
      find_pid_for_inode procfs0 12345 = entry500.pid :=
  ⟨rfl, by decide,
    (inode_correlator_spec procfs0 12345).2.2.1 [] entry500 [] rfl
      (by simp) (by decide)⟩

/-- C7: Each of the four socket-table sources is attempted regardless of
the others: an unopenable source yields a per-source failure (−1, structure
untouched) for that source only — the probe behaves exactly as if that
source had no records — siblings are still read, and the probe always
completes, returning 0. -/
theorem probe_source_independence (maxL maxC : Nat) (env : NetEnv)
    (prior net : NetworkInfo) (hdr : String) (is_ipv6 : Bool) :
    (probe_network maxL maxC env prior).1 = 0 ∧
      parse_tcp_file maxL maxC env.procfs none is_ipv6 net = (-1, net) ∧
      parse_udp_file maxL env.procfs none is_ipv6 net = (-1, net) ∧
      probe_network maxL maxC { env with tcp4 := none } prior =
        probe_network maxL maxC { env with tcp4 := some [hdr] } prior ∧
      probe_network maxL maxC { env with tcp6 := none } prior =
        probe_network maxL maxC { env with tcp6 := some [hdr] } prior ∧
      probe_network maxL maxC { env with udp4 := none } prior =
        probe_network maxL maxC { env with udp4 := some [hdr] } prior ∧
      probe_network maxL maxC { env with udp6 := none } prior =
        probe_network maxL maxC { env with udp6 := some [hdr] } prior := by
  refine ⟨rfl, rfl, rfl, ?_, ?_, ?_, ?_⟩ <;>
    simp [probe_network_eq, stage4, stage3, stage2, stage1, fileRecords]

/-- C9: The probe is deterministic and independent of the prior
contents of the structure: it zeroes the structure before any source is
read, so probing the same environment twice — or starting from any two
prior states — yields structurally identical output. -/
theorem probe_idempotent (maxL maxC : Nat) (env : NetEnv)
    (p q : NetworkInfo) :
    probe_network maxL maxC env p = probe_network maxL maxC env q ∧
      probe_network maxL maxC env (probe_network maxL maxC env p).2 =
        probe_network maxL maxC env p ∧
      probe_network maxL maxC env p = probe_network maxL maxC env zeroNet :=
  ⟨rfl, rfl, rfl⟩

/-- C8: A record line that fails to scan into the six expected fields is
skipped: it changes no stored sequence and no counter, and parsing of the
remaining records continues exactly as if the malformed line were absent. -/
theorem malformed_record_skip (maxL maxC : Nat) (env : ProcFS)
    (is_ipv6 : Bool) (pre post : List String) (bad : String)
    (net : NetworkInfo) (hbad : parse_sock_line is_ipv6 bad = none) :
    parse_tcp_lines maxL maxC env is_ipv6 (pre ++ bad :: post) net =
        parse_tcp_lines maxL maxC env is_ipv6 (pre ++ post) net ∧
      parse_udp_lines maxL env is_ipv6 (pre ++ bad :: post) net =
        parse_udp_lines maxL env is_ipv6 (pre ++ post) net ∧
      parse_tcp_lines maxL maxC env is_ipv6 [bad] net = net ∧
      parse_udp_lines maxL env is_ipv6 [bad] net = net := by
  refine ⟨?_, ?_, ?_, ?_⟩
  · induction pre generalizing net with
    | nil => simp [parse_tcp_lines, hbad]
    | cons a l ih =>
      simp only [List.cons_append, parse_tcp_lines]
      cases hp : parse_sock_line is_ipv6 a with
      | none => exact ih net
      | some r => exact ih _
  · induction pre generalizing net with
    | nil =>
      simp only [List.nil_append]
      by_cases hlt : net.listener_count < maxL
      · simp [parse_udp_lines, hlt, hbad]
      · rw [udp_lines_full _ _ _ _ _ hlt, udp_lines_full _ _ _ _ _ hlt]
    | cons a l ih =>
      simp only [List.cons_append]
      by_cases hlt : net.listener_count < maxL
      · simp only [parse_udp_lines, if_pos hlt]
        cases hp : parse_sock_line is_ipv6 a with
        | none => exact ih net
        | some r => exact ih _
      · rw [udp_lines_full _ _ _ _ _ hlt, udp_lines_full _ _ _ _ _ hlt]
  · simp [parse_tcp_lines, hbad]
  · by_cases hlt : net.listener_count < maxL
    · simp [parse_udp_lines, hlt, hbad]
    · exact udp_lines_full _ _ _ _ _ hlt

theorem malformed_record_skip_witness :
    parse_sock_line false "garbage" = none ∧
      parse_tcp_lines 4 4 procfs0 false ["garbage"] zeroNet = zeroNet ∧
      parse_udp_lines 4 procfs0 false ["garbage"] zeroNet = zeroNet :=
  ⟨by decide,
    (malformed_record_skip 4 4 procfs0 false [] [] "garbage" zeroNet
      (by decide)).2.2.1,
    (malformed_record_skip 4 4 procfs0 false [] [] "garbage" zeroNet
      (by decide)).2.2.2⟩

/-- C10: Every listener entry stored by the UDP parser carries the
literal state label `"LISTEN"` regardless of the record's numeric state —
in particular a record stored only because its port is non-zero (state
≠ 7, e.g. a connected UDP socket) is still labeled `"LISTEN"`. -/
theorem udp_state_label_literal (maxL : Nat) (env : ProcFS)
    (is_ipv6 : Bool) (lines : List String) (net : NetworkInfo)
    (r : SocketRecord) :
    (∃ new, (parse_udp_lines maxL env is_ipv6 lines net).listeners =
        net.listeners ++ new ∧ ∀ e ∈ new, e.state = "LISTEN") ∧
      (udp_listener_of env is_ipv6 r).state = "LISTEN" ∧
      (r.state ≠ 7 → r.local_port ≠ 0 →
        (udp_store_step env is_ipv6 r net).listeners =
          net.listeners ++ [udp_listener_of env is_ipv6 r]) := by
  refine ⟨udp_lines_listeners_extend maxL env is_ipv6 lines net, rfl, ?_⟩
  intro _ hp
  rw [udp_step_listeners, if_pos (Or.inr (Nat.pos_of_ne_zero hp))]

theorem udp_state_label_witness :
    recU.state ≠ 7 ∧ recU.local_port ≠ 0 ∧
      (udp_store_step procfs0 false recU zeroNet).listeners =
        zeroNet.listeners ++ [udp_listener_of procfs0 false recU] ∧
      (udp_listener_of procfs0 false recU).state = "LISTEN" :=
  ⟨by decide, by decide,
    (udp_state_label_literal 4 procfs0 false [] zeroNet recU).2.2
      (by decide) (by decide),
    (udp_state_label_literal 4 procfs0 false [] zeroNet recU).2.1⟩

end CSentinel
